import Mathlib

/-!
Verification development for the two-service todo backend
(`services/todo` and `services/ai`).

The Python sources are shallowly embedded: pure functions become Lean
functions, stateful code becomes explicit state passing, machine floats
that only ever hold small decimal confidence scores are modelled as
rationals, and fallible code returns `Except`/`Option`.  Each section
names the source file and function it embeds.
-/

namespace TodoApp

/-! ## Shared edge sanitization

Embeds `sanitize_string` from `services/todo/app/main.py` (lines 31-53)
and `services/ai/app/main.py` (lines 37-59); the two copies are
textually identical.  The pipeline is: truncate to `max_length`,
HTML-escape (`html.escape` with its default `quote=True`), then apply
`re.sub(pat, '', text, flags=re.IGNORECASE | re.DOTALL)` for the four
dangerous patterns in order (`<script[^>]*>.*?</script>`,
`javascript:`, `on\w+\s*=`, `<iframe[^>]*>.*?</iframe>`), and finally
`str.strip()`.

Character classes: the embedding uses the ASCII parts of Python's
`\w` and `\s`; every claim in scope exercises ASCII inputs only.
-/

/-- ASCII word character, the ASCII fragment of Python regex `\w`. -/
def isWordCh (c : Char) : Bool :=
  c.isAlphanum || c = '_'

/-- ASCII whitespace, the ASCII fragment of Python regex `\s` and of the
character set trimmed by `str.strip()`. -/
def isSpaceCh (c : Char) : Bool :=
  c = ' ' || c = '\t' || c = '\n' || c = '\r' || c = '\x0b' || c = '\x0c'

/-- Case-insensitive prefix test: does `l` begin with `pat`
(comparing lowercased characters)?  Used for the `re.IGNORECASE`
literal fragments of the dangerous patterns. -/
def leadsWithCI : List Char → List Char → Bool
  | [], _ => true
  | _ :: _, [] => false
  | p :: ps, c :: cs => (c.toLower = p.toLower) && leadsWithCI ps cs

/-- One character of `html.escape(text)` (Python stdlib, `quote=True`):
`&`, `<`, `>`, `"`, `'` are replaced by their entities. -/
def escapeChar (c : Char) : List Char :=
  if c = '&' then ['&', 'a', 'm', 'p', ';']
  else if c = '<' then ['&', 'l', 't', ';']
  else if c = '>' then ['&', 'g', 't', ';']
  else if c = '"' then ['&', 'q', 'u', 'o', 't', ';']
  else if c = '\x27' then ['&', '#', 'x', '2', '7', ';']
  else [c]

/-- `html.escape(text)` with `quote=True`.  Python replaces `&` first and
then the other four characters; since no entity introduces a character
that a later replacement rewrites outside an entity, this equals the
character-wise map. -/
def htmlEscape (l : List Char) : List Char :=
  l.flatMap escapeChar

/-- Attempt to match the regex `on\w+\s*=` at the head of `l`
(IGNORECASE).  Returns the remainder after the match.  Greedy `\w+`
followed by greedy `\s*` needs no backtracking here: shortening `\w+`
leaves the next character a word character, which neither `\s` nor `=`
accepts, and shortening `\s*` leaves a whitespace character, which `=`
does not accept. -/
def matchOnAt : List Char → Option (List Char)
  | c1 :: c2 :: rest =>
    if (c1.toLower = 'o') && (c2.toLower = 'n') then
      let w := rest.takeWhile isWordCh
      if w.isEmpty then none
      else
        let r1 := rest.dropWhile isWordCh
        let r2 := r1.dropWhile isSpaceCh
        match r2 with
        | '=' :: r3 => some r3
        | _ => none
    else none
  | _ => none

/-- One pass of `re.sub(r'on\w+\s*=', '', text)`: scan left to right,
delete each leftmost non-overlapping match, continue after it.  The
fuel argument bounds recursion; `removeOn` supplies `l.length`, which
is sufficient because every step consumes at least one character. -/
def removeOnAux : Nat → List Char → List Char
  | 0, l => l
  | fuel + 1, l =>
    match matchOnAt l with
    | some rest => removeOnAux fuel rest
    | none =>
      match l with
      | [] => []
      | c :: tl => c :: removeOnAux fuel tl

/-- `re.sub(r'on\w+\s*=', '', text, flags=re.IGNORECASE | re.DOTALL)`. -/
def removeOn (l : List Char) : List Char :=
  removeOnAux l.length l

/-- One pass of `re.sub(r'javascript:', '', text)` (IGNORECASE): delete
every occurrence of the literal. -/
def removeJsAux : Nat → List Char → List Char
  | 0, l => l
  | fuel + 1, l =>
    if leadsWithCI ['j', 'a', 'v', 'a', 's', 'c', 'r', 'i', 'p', 't', ':'] l then
      removeJsAux fuel (l.drop 11)
    else
      match l with
      | [] => []
      | c :: tl => c :: removeJsAux fuel tl

/-- `re.sub(r'javascript:', '', text, flags=re.IGNORECASE | re.DOTALL)`. -/
def removeJs (l : List Char) : List Char :=
  removeJsAux l.length l

/-- Scan for the closing literal `</tag>` (IGNORECASE); on success
return the remainder after it.  This is the lazy `.*?</tag>` with
DOTALL: the first closing literal ends the match. -/
def findCloseTag (closeLit : List Char) : List Char → Option (List Char)
  | [] => none
  | c :: tl =>
    if leadsWithCI closeLit (c :: tl) then some ((c :: tl).drop closeLit.length)
    else findCloseTag closeLit tl

/-- Attempt to match `<tag[^>]*>.*?</tag>` at the head of `l`
(IGNORECASE, DOTALL).  `openLit` is the literal `<tag`, `closeLit` the
literal `</tag>`.  Greedy `[^>]*` then `>` means: up to the first `>`;
if no `>` or no closing literal follows, the match attempt fails. -/
def matchTagAt (openLit closeLit : List Char) (l : List Char) : Option (List Char) :=
  if leadsWithCI openLit l then
    match (l.drop openLit.length).dropWhile (fun c => c ≠ '>') with
    | '>' :: body => findCloseTag closeLit body
    | _ => none
  else none

/-- One pass of `re.sub` for a tag-block pattern: delete each leftmost
match, continue after it; on a failed attempt advance one character. -/
def removeTagAux (openLit closeLit : List Char) : Nat → List Char → List Char
  | 0, l => l
  | fuel + 1, l =>
    match matchTagAt openLit closeLit l with
    | some rest => removeTagAux openLit closeLit fuel rest
    | none =>
      match l with
      | [] => []
      | c :: tl => c :: removeTagAux openLit closeLit fuel tl

/-- `re.sub(r'<script[^>]*>.*?</script>', '', text, flags=re.IGNORECASE | re.DOTALL)`. -/
def removeScript (l : List Char) : List Char :=
  removeTagAux ['<', 's', 'c', 'r', 'i', 'p', 't']
    ['<', '/', 's', 'c', 'r', 'i', 'p', 't', '>'] l.length l

/-- `re.sub(r'<iframe[^>]*>.*?</iframe>', '', text, flags=re.IGNORECASE | re.DOTALL)`. -/
def removeIframe (l : List Char) : List Char :=
  removeTagAux ['<', 'i', 'f', 'r', 'a', 'm', 'e']
    ['<', '/', 'i', 'f', 'r', 'a', 'm', 'e', '>'] l.length l

/-- Python `str.strip()`: drop leading and trailing whitespace. -/
def pyStrip (l : List Char) : List Char :=
  ((l.dropWhile isSpaceCh).reverse.dropWhile isSpaceCh).reverse

/-- The sanitization pipeline on the character list of an input already
truncated to its maximum length: HTML-escape, remove the four dangerous
patterns in source order, strip. -/
def sanitizeChars (l : List Char) : List Char :=
  pyStrip (removeIframe (removeOn (removeJs (removeScript (htmlEscape l)))))

/-- `sanitize_string(text, max_length)` from both services' `main.py`
for a non-null input: `if not text: return text`, truncate, escape,
remove dangerous patterns, strip. -/
def sanitize_string (text : String) (maxLength : Nat) : String :=
  if text.isEmpty then text
  else String.mk (sanitizeChars (text.toList.take maxLength))

/-- `sanitize_string` lifted to `Optional[str]` arguments (`None` and
empty strings are returned unchanged). -/
def sanitizeOpt (text : Option String) (maxLength : Nat) : Option String :=
  text.map (fun t => sanitize_string t maxLength)

/-! ## Todo data model

Embeds the task entity of `services/todo/app/models.py` and the
validators of `services/todo/app/main.py` (lines 55-98).  UUIDs are
modelled as `Nat` identifiers and timestamps as rationals; the
free-form `ai_metadata` JSON column is modelled as an optional opaque
serialized string. -/

inductive TodoStatus where
  | TODO
  | DOING
  | DONE
deriving DecidableEq, Repr

/-- The string value of a `TodoStatus` enum member. -/
def TodoStatus.str : TodoStatus → String
  | .TODO => "TODO"
  | .DOING => "DOING"
  | .DONE => "DONE"

/-- A row of the `todos` table (`models.Todo`). -/
structure Todo where
  id : Nat
  title : String
  description : Option String
  status : TodoStatus
  priority : Int
  category : Option String
  estimated_time : Option Int
  ai_metadata : Option String
  created_at : ℚ
  updated_at : ℚ
deriving DecidableEq, Repr

/-- An HTTP error as raised by `HTTPException(status_code, detail)`. -/
structure HttpError where
  status : Nat
  detail : String
deriving DecidableEq, Repr

/-- The category allow-list shared by both services. -/
def allowed_categories : List String :=
  ["업무", "개인", "학습", "건강", "재정", "기타",
   "Work", "Personal", "Learning", "Health", "Finance", "Other"]

/-- `validate_priority` (todo `main.py` lines 55-63).  The
`isinstance(priority, int)` guard always holds here because the
payload schema already typed the field as an integer. -/
def validate_priority (priority : Option Int) : Except HttpError (Option Int) :=
  match priority with
  | none => Except.ok none
  | some p =>
    if p < 1 || p > 5 then
      Except.error ⟨422, "Priority must be between 1 and 5"⟩
    else Except.ok (some p)

/-- `validate_category` (todo `main.py` lines 65-75): `None` and the
empty string are passed through (`if not category`), anything else must
be in the allow-list. -/
def validate_category (category : Option String) : Except HttpError (Option String) :=
  match category with
  | none => Except.ok none
  | some c =>
    if c.isEmpty then Except.ok (some c)
    else if c ∈ allowed_categories then Except.ok (some c)
    else Except.error ⟨422, "Invalid category"⟩

/-- `validate_status` (todo `main.py` lines 77-84). -/
def validate_status (status : String) : Except HttpError String :=
  if status ∈ ["TODO", "DOING", "DONE"] then Except.ok status
  else Except.error ⟨422, "Invalid status"⟩

/-- `validate_estimated_time` (todo `main.py` lines 86-98). -/
def validate_estimated_time (estimated_time : Option Int) : Except HttpError (Option Int) :=
  match estimated_time with
  | none => Except.ok none
  | some e =>
    if e < 0 then
      Except.error ⟨422, "Estimated time must be a non-negative integer"⟩
    else if e > 1440 then
      Except.error ⟨422, "Estimated time cannot exceed 1440 minutes (24 hours)"⟩
    else Except.ok (some e)

/-- The `TodoCreate` payload after the schema layer
(`schemas.py` lines 17-28): `title` is a string of 1-255 characters,
`priority` an integer in 1-5 defaulting to 3, `estimated_time` a
non-negative integer when present. -/
structure TodoCreate where
  title : String
  description : Option String := none
  priority : Int := 3
  category : Option String := none
  estimated_time : Option Int := none
deriving DecidableEq, Repr

/-- The `TodoUpdate` payload (`schemas.py` lines 31-37) with pydantic
set-tracking: the outer `Option` is `none` when the field was absent
from the request (`exclude_unset`); the inner value is what the client
supplied.  `title` and `priority` map to non-nullable columns, so their
supplied values are modelled as non-null. -/
structure TodoUpdate where
  title : Option String := none
  description : Option (Option String) := none
  priority : Option Int := none
  category : Option (Option String) := none
  estimated_time : Option (Option Int) := none
deriving DecidableEq, Repr

/-! ## Persistence and cache layer

Embeds `services/todo/app/crud.py`.  The relational store is a list of
rows; Redis is a `CacheState` of item entries plus the
`todos:tags:list` tag set.  Each primitive cache operation takes a
failure flag from `RedisFailure`; a `true` flag means the corresponding
Redis call raises (connectivity/serialization failure) at that call
site.  The source wraps `_invalidate_todos_list_cache` and
`_cache_todo_with_tags` bodies in `try/except` (swallow), but the
direct `redis_client.delete(f"todo:{id}")` calls in `update_todo`,
`update_todo_status` and `delete_todo` are unprotected. -/

/-- Which Redis primitives fail (raise) during one crud call. -/
structure RedisFailure where
  itemDeleteFails : Bool := false
  smembersFails : Bool := false
  bulkDeleteFails : Bool := false
  tagDeleteFails : Bool := false
  setexFails : Bool := false
  saddFails : Bool := false
deriving DecidableEq, Repr

/-- The cache: `todo:{id}` item entries (key paired with the serialized
row id) and the `todos:tags:list` tag set of keys to drop. -/
structure CacheState where
  items : List Nat
  tagSet : List Nat
deriving DecidableEq, Repr

/-- `_invalidate_todos_list_cache` (crud.py lines 172-185): read the
tag set, bulk-delete its keys, clear the tag set; any failure is caught
inside the function and swallowed, keeping the effects applied so
far. -/
def invalidate_todos_list_cache (f : RedisFailure) (st : CacheState) : CacheState :=
  if f.smembersFails then st
  else if st.tagSet.isEmpty then st
  else if f.bulkDeleteFails then st
  else
    let st1 : CacheState := { st with items := st.items.filter (fun k => k ∉ st.tagSet) }
    if f.tagDeleteFails then st1
    else { st1 with tagSet := [] }

/-- `_cache_todo_with_tags` (crud.py lines 188-198): `setex` the item,
`sadd` its key to the tag set; any failure is caught inside the
function and swallowed. -/
def cache_todo_with_tags (f : RedisFailure) (todoId : Nat) (st : CacheState) : CacheState :=
  if f.setexFails then st
  else
    let st1 : CacheState := { st with items := todoId :: st.items.filter (fun k => k ≠ todoId) }
    if f.saddFails then st1
    else { st1 with tagSet := todoId :: st1.tagSet.filter (fun k => k ≠ todoId) }

/-- Row lookup by id (`crud.get_todo`). -/
def dbFind (db : List Todo) (todoId : Nat) : Option Todo :=
  db.find? (fun t => t.id = todoId)

/-- Commit of an updated row. -/
def dbReplace (db : List Todo) (t : Todo) : List Todo :=
  db.map (fun r => if r.id = t.id then t else r)

/-- Outcome of a crud mutation: not found, an uncaught exception raised
after the database commit (carrying the already-committed store), or
success. -/
inductive CrudResult (α : Type) where
  | notFound
  | raised (db : List Todo) (st : CacheState)
  | ok (db : List Todo) (st : CacheState) (val : α)
deriving DecidableEq, Repr

/-- Apply only the supplied fields of a `TodoUpdate`
(`todo.dict(exclude_unset=True)` loop in `crud.update_todo`), with the
`updated_at` column refreshed by its `onupdate` clause. -/
def applyTodoUpdate (t : Todo) (u : TodoUpdate) (now : ℚ) : Todo :=
  { t with
    title := u.title.getD t.title
    description := match u.description with | some v => v | none => t.description
    priority := u.priority.getD t.priority
    category := match u.category with | some v => v | none => t.category
    estimated_time := match u.estimated_time with | some v => v | none => t.estimated_time
    updated_at := now }

namespace Crud

/-- `crud.create_todo` (lines 73-85): insert and commit the new row,
then invalidate the list tag set and cache the record — both cache
steps are inside the swallowing helpers, so create never raises. -/
def create_todo (f : RedisFailure) (db : List Todo) (st : CacheState)
    (t : Todo) : CrudResult Todo :=
  let db1 := db ++ [t]
  let st1 := invalidate_todos_list_cache f st
  let st2 := cache_todo_with_tags f t.id st1
  CrudResult.ok db1 st2 t

/-- `crud.update_todo` (lines 88-108): apply supplied fields, commit,
then `redis_client.delete(f"todo:{todo_id}")` (unprotected), tag-set
invalidation and re-caching (both swallowing). -/
def update_todo (f : RedisFailure) (db : List Todo) (st : CacheState)
    (todoId : Nat) (u : TodoUpdate) (now : ℚ) : CrudResult Todo :=
  match dbFind db todoId with
  | none => CrudResult.notFound
  | some t =>
    let t1 := applyTodoUpdate t u now
    let db1 := dbReplace db t1
    if f.itemDeleteFails then CrudResult.raised db1 st
    else
      let st1 : CacheState := { st with items := st.items.filter (fun k => k ≠ todoId) }
      let st2 := invalidate_todos_list_cache f st1
      let st3 := cache_todo_with_tags f todoId st2
      CrudResult.ok db1 st3 t1

/-- `crud.update_todo_status` (lines 111-127): set the status field,
commit, then the same cache sequence as `update_todo`. -/
def update_todo_status (f : RedisFailure) (db : List Todo) (st : CacheState)
    (todoId : Nat) (status : TodoStatus) (now : ℚ) : CrudResult Todo :=
  match dbFind db todoId with
  | none => CrudResult.notFound
  | some t =>
    let t1 : Todo := { t with status := status, updated_at := now }
    let db1 := dbReplace db t1
    if f.itemDeleteFails then CrudResult.raised db1 st
    else
      let st1 : CacheState := { st with items := st.items.filter (fun k => k ≠ todoId) }
      let st2 := invalidate_todos_list_cache f st1
      let st3 := cache_todo_with_tags f todoId st2
      CrudResult.ok db1 st3 t1

/-- `crud.delete_todo` (lines 130-144): remove the row, commit, then
`redis_client.delete` (unprotected) and tag-set invalidation. -/
def delete_todo (f : RedisFailure) (db : List Todo) (st : CacheState)
    (todoId : Nat) : CrudResult Bool :=
  match dbFind db todoId with
  | none => CrudResult.notFound
  | some _ =>
    let db1 := db.filter (fun t => t.id ≠ todoId)
    if f.itemDeleteFails then CrudResult.raised db1 st
    else
      let st1 : CacheState := { st with items := st.items.filter (fun k => k ≠ todoId) }
      let st2 := invalidate_todos_list_cache f st1
      CrudResult.ok db1 st2 true

end Crud

/-! ## List query (`crud.get_todos`, lines 24-51)

The sort column is chosen by `getattr(models.Todo, sort_by, "created_at")`:
a column attribute when `sort_by` names one; some other (non-column)
class attribute, which `desc()/asc()` cannot order by — such a query
raises at construction; or, for names the model class does not have at
all, the literal string `"created_at"`, which SQLAlchemy compiles to
`ORDER BY created_at` — the creation-time column. -/

/-- Column names of `models.Todo`. -/
def todoColumnNames : List String :=
  ["id", "title", "description", "status", "priority", "category",
   "estimated_time", "ai_metadata", "created_at", "updated_at"]

/-- Principal non-column attributes reachable on the model class
(methods, declarative machinery).  `getattr` finds these, and ordering
by them fails at query construction. -/
def todoOtherAttrNames : List String :=
  ["to_dict", "__tablename__", "metadata", "registry"]

/-- Resolution of the `ORDER BY` target. -/
inductive SortTarget where
  | col (name : String)
  | nonColumnAttr
deriving DecidableEq, Repr

/-- `getattr(models.Todo, sort_by, "created_at")` followed by
`desc/asc`: a known column orders by that column; a known non-column
attribute cannot be ordered by; an unknown name falls back to the
default — the literal string `"created_at"`, compiled as the
`created_at` column. -/
def getattrTodoSort (sort_by : String) : SortTarget :=
  if sort_by ∈ todoColumnNames then SortTarget.col sort_by
  else if sort_by ∈ todoOtherAttrNames then SortTarget.nonColumnAttr
  else SortTarget.col "created_at"

/-- Ascending comparison on an optional column value; SQL places nulls
last ascending (and hence first descending). -/
def leOpt {α : Type} (le : α → α → Bool) : Option α → Option α → Bool
  | some a, some b => le a b
  | some _, none => true
  | none, some _ => false
  | none, none => true

/-- Ascending row comparison for one column. -/
def leBy : String → Todo → Todo → Bool
  | "id", a, b => a.id ≤ b.id
  | "title", a, b => decide (a.title ≤ b.title)
  | "description", a, b => leOpt (fun x y => decide (x ≤ y)) a.description b.description
  | "status", a, b => decide (a.status.str ≤ b.status.str)
  | "priority", a, b => decide (a.priority ≤ b.priority)
  | "category", a, b => leOpt (fun x y => decide (x ≤ y)) a.category b.category
  | "estimated_time", a, b => leOpt (fun x y => decide (x ≤ y)) a.estimated_time b.estimated_time
  | "created_at", a, b => decide (a.created_at ≤ b.created_at)
  | "updated_at", a, b => decide (a.updated_at ≤ b.updated_at)
  | _, _, _ => true

/-- `ORDER BY col asc|desc` over the filtered rows. -/
def sortTodos (col : String) (order : String) (l : List Todo) : List Todo :=
  if order = "desc" then l.mergeSort (fun a b => leBy col b a)
  else l.mergeSort (leBy col)

/-- The three truthiness-guarded filters of `get_todos`
(`if status: ... if category: ... if priority: ...`). -/
def applyFilters (db : List Todo) (status : Option String)
    (category : Option String) (priority : Option Int) : List Todo :=
  let q1 := match status with
    | some s => if s ≠ "" then db.filter (fun t => t.status.str = s) else db
    | none => db
  let q2 := match category with
    | some c => if c ≠ "" then q1.filter (fun t => t.category = some c) else q1
    | none => q1
  match priority with
  | some p => if p ≠ 0 then q2.filter (fun t => t.priority = p) else q2
  | none => q2

/-- `crud.get_todos`: filter, sort, offset, limit.  Ordering by a
non-column attribute raises at query construction (`Except.error`). -/
def get_todos (db : List Todo) (skip limit : Nat) (status : Option String)
    (category : Option String) (priority : Option Int)
    (sort_by : String) (order : String) : Except String (List Todo) :=
  let filtered := applyFilters db status category priority
  match getattrTodoSort sort_by with
  | SortTarget.nonColumnAttr => Except.error "order_by target is not a column"
  | SortTarget.col name =>
    Except.ok (((sortTodos name order filtered).drop skip).take limit)

/-! ## Todo-service create endpoint (`main.py` lines 260-309)

The handler body sanitizes and validates, then inserts.  Its `except
Exception` clause has no preceding `except HTTPException: raise`
(unlike every other handler in the file), so even the `HTTPException`s
the body itself raises are caught and replaced by a 500. -/

/-- The HTTP outcome of a handler. -/
inductive HttpResult (α : Type) where
  | ok (status : Nat) (val : α)
  | err (e : HttpError)
deriving DecidableEq, Repr

/-- The `try` body of the `create_todo` handler: sanitize title and
description, validate priority and category, require a non-empty
sanitized title, then `crud.create_todo` the new row. -/
def createTodoBody (t : TodoCreate) (newId : Nat) (now : ℚ) : Except HttpError Todo := do
  let title := sanitize_string t.title 255
  let desc := sanitizeOpt t.description 2000
  let pr ← validate_priority (some t.priority)
  let cat ← validate_category t.category
  if title.isEmpty then
    Except.error ⟨422, "Title is required and cannot be empty"⟩
  else
    Except.ok
      { id := newId
        title := title
        description := desc
        status := TodoStatus.TODO
        priority := pr.getD 3
        category := cat
        estimated_time := t.estimated_time
        ai_metadata := none
        created_at := now
        updated_at := now }

/-- The `create_todo` endpoint: on success 201 with the row; any
exception from the body — including the body's own 422
`HTTPException`s — is caught by the blanket `except Exception` and
surfaced as a 500 with a generic Korean message. -/
def create_todo_endpoint (t : TodoCreate) (newId : Nat) (now : ℚ) : HttpResult Todo :=
  match createTodoBody t newId now with
  | Except.ok todo => HttpResult.ok 201 todo
  | Except.error _ => HttpResult.err ⟨500, "할 일 생성 중 오류가 발생했습니다"⟩

/-! ## AI service: parse agent (`services/ai/app/agents.py` lines 77-124)

`TodoParserAgent.parse` calls the LLM, decodes its reply with
`json.loads`, fills missing `priority`/`category`/`estimated_time`
keys with `setdefault`, and logs `result['title']`.  Every exception
inside the body — LLM failure, JSON decode failure, `setdefault` on a
non-object reply, `KeyError` when `title` is absent — is caught and
turns into the fixed fallback draft, so the coroutine never raises.
The decoded reply is modelled as a record of optional fields; the
upstream outcome collapses every exceptional path into `failure`. -/

/-- The JSON object decoded from the LLM reply, with the fields the
service reads; an absent key is `none`. -/
structure ParsedDict where
  title : Option String := none
  description : Option String := none
  priority : Option Int := none
  category : Option String := none
  estimated_time : Option Int := none
deriving DecidableEq, Repr

/-- Outcome of the upstream LLM call plus `json.loads`: a decoded
object, or any failure (connection/timeout after retries, JSON decode
error, non-object reply). -/
inductive LLMParseOutcome where
  | failure
  | ok (d : ParsedDict)
deriving DecidableEq, Repr

/-- The structured draft `parse` returns. -/
structure Draft where
  title : String
  description : Option String
  priority : Int
  category : String
  estimated_time : Int
deriving DecidableEq, Repr

/-- The documented fallback draft: input truncated to 255 characters,
no description, priority 3, category "기타", estimated time 30. -/
def parse_fallback (input : String) : Draft :=
  { title := String.mk (input.toList.take 255)
    description := none
    priority := 3
    category := "기타"
    estimated_time := 30 }

/-- `TodoParserAgent.parse`: on a decoded object carrying a title,
return it with `setdefault` defaults for the three optional fields —
the supplied values are not range-checked; on any failure (or an
object without a title, whose success-path logging raises `KeyError`),
return the fallback. -/
def todo_parser_parse (input : String) (u : LLMParseOutcome) : Draft :=
  match u with
  | LLMParseOutcome.failure => parse_fallback input
  | LLMParseOutcome.ok d =>
    match d.title with
    | none => parse_fallback input
    | some t =>
      { title := t
        description := d.description
        priority := d.priority.getD 3
        category := d.category.getD "기타"
        estimated_time := d.estimated_time.getD 30 }

/-! ## AI service: full-pipeline aggregation
(`services/ai/app/langraph_workflow.py` lines 87-119)

`aggregate_results` starts from the parsed draft and applies each
suggestion only when its confidence exceeds 0.7.  Confidences are
small decimal scores; they are modelled as rationals, on which the
strict comparison against 0.7 agrees with the source's float
comparison at every two-decimal score.  A branch that did not run left
`{}` in its state slot, modelled as `none`; `\.get("confidence", 0)`
then yields 0. -/

/-- A priority suggestion payload (`PriorityRecommenderAgent`). -/
structure PrioritySuggestion where
  recommended_priority : Int
  reasoning : String
  confidence : ℚ
deriving DecidableEq, Repr

/-- A category suggestion payload (`CategoryClassifierAgent`). -/
structure CategorySuggestion where
  category : String
  confidence : ℚ
  reasoning : String
deriving DecidableEq, Repr

/-- A time-estimate suggestion payload (`TimeEstimatorAgent`). -/
structure TimeSuggestion where
  estimated_minutes : Int
  confidence : ℚ
  suggestion : Option String
deriving DecidableEq, Repr

/-- The `ai_metadata` object attached by aggregation. -/
structure AiMetadataOut where
  priority_confidence : ℚ
  category_confidence : ℚ
  time_confidence : ℚ
  processed : Bool
deriving DecidableEq, Repr

/-- The merged final task produced by aggregation. -/
structure FinalTodo where
  title : String
  description : Option String
  priority : Int
  category : String
  estimated_time : Int
  priority_reasoning : Option String
  time_suggestion : Option (Option String)
  ai_metadata : AiMetadataOut
deriving DecidableEq, Repr

/-- The strict auto-apply threshold. -/
def CONFIDENCE_THRESHOLD : ℚ := 7 / 10

/-- `aggregate_results`: overwrite `priority` (recording the
reasoning), `category`, and `estimated_time` (recording the
suggestion) exactly when the corresponding confidence is strictly
above the threshold, and always attach `ai_metadata` with the three
confidences (0 for a missing suggestion) and `processed = true`. -/
def aggregate_results (parsed : Draft) (pr : Option PrioritySuggestion)
    (cc : Option CategorySuggestion) (te : Option TimeSuggestion) : FinalTodo :=
  { title := parsed.title
    description := parsed.description
    priority :=
      match pr with
      | some s => if s.confidence > CONFIDENCE_THRESHOLD then s.recommended_priority else parsed.priority
      | none => parsed.priority
    priority_reasoning :=
      match pr with
      | some s => if s.confidence > CONFIDENCE_THRESHOLD then some s.reasoning else none
      | none => none
    category :=
      match cc with
      | some s => if s.confidence > CONFIDENCE_THRESHOLD then s.category else parsed.category
      | none => parsed.category
    estimated_time :=
      match te with
      | some s => if s.confidence > CONFIDENCE_THRESHOLD then s.estimated_minutes else parsed.estimated_time
      | none => parsed.estimated_time
    time_suggestion :=
      match te with
      | some s => if s.confidence > CONFIDENCE_THRESHOLD then some s.suggestion else none
      | none => none
    ai_metadata :=
      { priority_confidence := match pr with | some s => s.confidence | none => 0
        category_confidence := match cc with | some s => s.confidence | none => 0
        time_confidence := match te with | some s => s.confidence | none => 0
        processed := true } }

/-! ## AI service: batch endpoint (`services/ai/app/main.py`)

`validate_todo_data` (lines 61-86) checks one task payload, a JSON
object with dynamically-typed fields, and raises `HTTPException(422)`
on each failed check.  Calling `sanitize_string` on a truthy non-string
`title`/`description` raises a `TypeError` instead, which the batch
loop's `except HTTPException` does not catch. -/

/-- A dynamically-typed JSON field value. -/
inductive JVal where
  | jnull
  | jint (n : Int)
  | jstr (s : String)
deriving DecidableEq, Repr

/-- Python truthiness of a `JVal`. -/
def JVal.truthy : JVal → Bool
  | JVal.jnull => false
  | JVal.jint n => n ≠ 0
  | JVal.jstr s => !s.isEmpty

/-- One task payload of a batch request: a JSON object whose relevant
keys may be absent (`none`) or hold a value of any type. -/
structure BatchTodo where
  title : Option JVal := none
  description : Option JVal := none
  category : Option JVal := none
  priority : Option JVal := none
  estimated_time : Option JVal := none
deriving DecidableEq, Repr

/-- How one validation step ends: a 422 `HTTPException`, or a
`TypeError` escaping `sanitize_string` on a non-string value. -/
inductive VErr where
  | http (e : HttpError)
  | typeError
deriving DecidableEq, Repr

/-- The `title` check of `validate_todo_data`: a truthy title is
sanitized (a non-string raises `TypeError` inside `sanitize_string`)
and must remain non-empty. -/
def vTitle (d : BatchTodo) : Except VErr BatchTodo :=
  match d.title with
  | some v =>
    if v.truthy then
      match v with
      | JVal.jstr s =>
        let s1 := sanitize_string s 255
        if s1.isEmpty then Except.error (VErr.http ⟨422, "Title cannot be empty"⟩)
        else Except.ok { d with title := some (JVal.jstr s1) }
      | _ => Except.error VErr.typeError
    else Except.ok d
  | none => Except.ok d

/-- The `description` check: a truthy description is sanitized. -/
def vDescription (d : BatchTodo) : Except VErr BatchTodo :=
  match d.description with
  | some v =>
    if v.truthy then
      match v with
      | JVal.jstr s => Except.ok { d with description := some (JVal.jstr (sanitize_string s 2000)) }
      | _ => Except.error VErr.typeError
    else Except.ok d
  | none => Except.ok d

/-- The `category` check: a truthy category must be one of the allowed
string values (any non-string truthy value is likewise not in the
list). -/
def vCategory (d : BatchTodo) : Except VErr BatchTodo :=
  match d.category with
  | some v =>
    if v.truthy then
      match v with
      | JVal.jstr s =>
        if s ∈ allowed_categories then Except.ok d
        else Except.error (VErr.http ⟨422, "Invalid category"⟩)
      | _ => Except.error (VErr.http ⟨422, "Invalid category"⟩)
    else Except.ok d
  | none => Except.ok d

/-- The `priority` check (`is not None`): must be an integer in 1-5;
a non-integer fails the `isinstance` test. -/
def vPriority (d : BatchTodo) : Except VErr BatchTodo :=
  match d.priority with
  | some JVal.jnull => Except.ok d
  | some (JVal.jint n) =>
    if n < 1 || n > 5 then Except.error (VErr.http ⟨422, "Priority must be between 1 and 5"⟩)
    else Except.ok d
  | some (JVal.jstr _) => Except.error (VErr.http ⟨422, "Priority must be between 1 and 5"⟩)
  | none => Except.ok d

/-- The `estimated_time` check (`is not None`): a non-negative integer
of at most 1440. -/
def vEstimatedTime (d : BatchTodo) : Except VErr BatchTodo :=
  match d.estimated_time with
  | some JVal.jnull => Except.ok d
  | some (JVal.jint n) =>
    if n < 0 then Except.error (VErr.http ⟨422, "Estimated time must be a non-negative integer"⟩)
    else if n > 1440 then Except.error (VErr.http ⟨422, "Estimated time cannot exceed 1440 minutes (24 hours)"⟩)
    else Except.ok d
  | some (JVal.jstr _) => Except.error (VErr.http ⟨422, "Estimated time must be a non-negative integer"⟩)
  | none => Except.ok d

/-- `validate_todo_data` (AI `main.py` lines 61-86): the five field
checks in source order, returning the payload with sanitized
title/description. -/
def validate_todo_data (d : BatchTodo) : Except VErr BatchTodo := do
  let d1 ← vTitle d
  let d2 ← vDescription d1
  let d3 ← vCategory d2
  let d4 ← vPriority d3
  vEstimatedTime d4

/-- `BatchAnalysisAgent.analyze` (agents.py lines 262-292): returns
the upstream completion text, or on any failure the fixed fallback
text — never raises. -/
def batch_analyzer_analyze (llm : Option String) : String :=
  match llm with
  | some text => text
  | none => "Unable to analyze todos at this time."

/-- The per-item validation loop of `analyze_batch`: items failing
with `HTTPException` are logged and skipped; a `TypeError` escapes the
loop. -/
def validateLoop : List BatchTodo → Except Unit (List BatchTodo)
  | [] => Except.ok []
  | t :: ts =>
    match validate_todo_data t with
    | Except.ok v => (validateLoop ts).map (fun vs => v :: vs)
    | Except.error (VErr.http _) => validateLoop ts
    | Except.error VErr.typeError => Except.error ()

/-- The response body of a successful batch analysis. -/
structure BatchResponse where
  analysis : String
  todo_count : Nat
  original_count : Nat
deriving DecidableEq, Repr

/-- `analyze_batch` (AI `main.py` lines 397-466): reject more than 100
items, then an empty batch, with 422 before any per-item work; drop
per-item 422s; run the batch agent over the surviving items; report
both counts.  An escaping `TypeError` reaches the handler's blanket
`except Exception` and yields the generic 500. -/
def analyze_batch (todos : List BatchTodo) (llm : Option String) : HttpResult BatchResponse :=
  if todos.length > 100 then HttpResult.err ⟨422, "Batch size cannot exceed 100 todos"⟩
  else if todos.length = 0 then HttpResult.err ⟨422, "Batch cannot be empty"⟩
  else
    match validateLoop todos with
    | Except.error _ => HttpResult.err ⟨500, "배치 분석 중 오류가 발생했습니다"⟩
    | Except.ok validated =>
      HttpResult.ok 200
        { analysis := batch_analyzer_analyze llm
          todo_count := validated.length
          original_count := todos.length }

/-! ## Shared edge middleware: sliding-window rate limiter

Embeds `check_rate_limit` and the middleware gate, identical in
`services/ai/app/main.py` (lines 93-106, 129-141; limit 60) and
`services/todo/app/main.py` (lines 132-145, 148-160; limit 100).
`request_counts` is a `defaultdict(list)` of per-IP admission
timestamps. -/

/-- The 60-second window (`RATE_LIMIT_WINDOW`). -/
def RATE_LIMIT_WINDOW : ℚ := 60

/-- `RATE_LIMIT_REQUESTS` of the AI service. -/
def AI_RATE_LIMIT_REQUESTS : Nat := 60

/-- `RATE_LIMIT_REQUESTS` of the Todo service. -/
def TODO_RATE_LIMIT_REQUESTS : Nat := 100

/-- The per-IP request-timestamp map (`request_counts`). -/
abbrev RateState : Type := List (String × List ℚ)

/-- `request_counts[client_ip]` with the defaultdict default `[]`. -/
def lookupCounts : RateState → String → List ℚ
  | [], _ => []
  | (k, w) :: tl, ip => if k = ip then w else lookupCounts tl ip

/-- Assignment `request_counts[client_ip] = v`. -/
def setCounts : RateState → String → List ℚ → RateState
  | [], ip, v => [(ip, v)]
  | (k, w) :: tl, ip, v =>
    if k = ip then (ip, v) :: tl else (k, w) :: setCounts tl ip v

/-- `check_rate_limit(client_ip)`: prune entries older than the window
(keeping `now - t < 60`), reject when the surviving count has reached
the limit, otherwise record the admission. -/
def check_rate_limit (limit : Nat) (st : RateState) (ip : String) (now : ℚ) :
    Bool × RateState :=
  let pruned := (lookupCounts st ip).filter (fun t => now - t < RATE_LIMIT_WINDOW)
  if limit ≤ pruned.length then (false, setCounts st ip pruned)
  else (true, setCounts st ip (pruned ++ [now]))

/-- Case-sensitive: does `l` begin with `pat`? -/
def leadsWith : List Char → List Char → Bool
  | [], _ => true
  | _ :: _, [] => false
  | p :: ps, c :: cs => (c = p) && leadsWith ps cs

/-- Python `path.endswith(sfx)`. -/
def pyEndsWith (path sfx : String) : Bool :=
  leadsWith sfx.toList.reverse path.toList.reverse

/-- The rate-limiting fragment of the security middleware: paths
ending in `/health` bypass the check entirely (neither counted nor
blocked); other requests pass through `check_rate_limit`, a `false`
verdict raising HTTP 429. -/
def middlewareStep (limit : Nat) (path : String) (ip : String) (now : ℚ)
    (st : RateState) : Bool × RateState :=
  if pyEndsWith path "/health" then (true, st)
  else check_rate_limit limit st ip now

/-- Run a sequence of same-IP requests `(path, time)` through the
middleware, collecting each admission verdict. -/
def runRequests (limit : Nat) (ip : String) :
    List (String × ℚ) → RateState → List Bool × RateState
  | [], st => ([], st)
  | (p, t) :: rs, st =>
    let (b, st1) := middlewareStep limit p ip t st
    let (bs, st2) := runRequests limit ip rs st1
    (b :: bs, st2)

/-! ## AI service: LLM concurrency slots (`agents.py` lines 54-68)

`acquire_request_slot` busy-polls while the counter has reached
`MAX_CONCURRENT_REQUESTS` and increments it only after a check with no
`await` between check and increment — under cooperative scheduling the
check-and-increment pair is atomic, so it is one guarded transition.
`release_request_slot` sets the counter to `max(0, counter - 1)`. -/

/-- `MAX_CONCURRENT_REQUESTS`. -/
def MAX_CONCURRENT_REQUESTS : Int := 10

/-- One atomic transition of the `_concurrent_requests` counter. -/
inductive SlotStep : Int → Int → Prop where
  | acquire (c : Int) (h : c < MAX_CONCURRENT_REQUESTS) : SlotStep c (c + 1)
  | release (c : Int) : SlotStep c (max 0 (c - 1))

/-- Counter values reachable from the initial value 0 by any
interleaving of acquires and releases. -/
inductive SlotReachable : Int → Prop where
  | init : SlotReachable 0
  | step (c c2 : Int) : SlotReachable c → SlotStep c c2 → SlotReachable c2

/-! ## Substring observation helper (used in theorem statements, to
phrase which byte sequences an output still contains). -/

/-- Does `pat` occur contiguously anywhere in `l`? -/
def containsSeq (pat : List Char) : List Char → Bool
  | [] => pat.isEmpty
  | c :: tl => leadsWith pat (c :: tl) || containsSeq pat tl

instance exceptDecidableEq {ε α : Type} [DecidableEq ε] [DecidableEq α] :
    DecidableEq (Except ε α) := fun x y =>
  match x, y with
  | Except.ok a, Except.ok b =>
    if h : a = b then Decidable.isTrue (by subst h; rfl)
    else Decidable.isFalse (fun hc => h (Except.ok.inj hc))
  | Except.error a, Except.error b =>
    if h : a = b then Decidable.isTrue (by subst h; rfl)
    else Decidable.isFalse (fun hc => h (Except.error.inj hc))
  | Except.ok _, Except.error _ => Decidable.isFalse (fun hc => Except.noConfusion hc)
  | Except.error _, Except.ok _ => Decidable.isFalse (fun hc => Except.noConfusion hc)

/-! # Theorems -/

/-! ## Helper lemmas: every sanitization stage only keeps characters of
its input, and the escaping stage emits no angle bracket. -/

lemma escapeChar_no_angle (a : Char) : ∀ c ∈ escapeChar a, c ≠ '<' ∧ c ≠ '>' := by
  intro c hc
  unfold escapeChar at hc
  split_ifs at hc with h1 h2 h3 h4 h5 <;> simp at hc
  · rcases hc with rfl | rfl | rfl | rfl | rfl <;> exact ⟨by decide, by decide⟩
  · rcases hc with rfl | rfl | rfl | rfl <;> exact ⟨by decide, by decide⟩
  · rcases hc with rfl | rfl | rfl | rfl <;> exact ⟨by decide, by decide⟩
  · rcases hc with rfl | rfl | rfl | rfl | rfl | rfl <;> exact ⟨by decide, by decide⟩
  · rcases hc with rfl | rfl | rfl | rfl | rfl | rfl <;> exact ⟨by decide, by decide⟩
  · subst hc; exact ⟨h2, h3⟩

lemma htmlEscape_no_angle (l : List Char) : ∀ c ∈ htmlEscape l, c ≠ '<' ∧ c ≠ '>' := by
  intro c hc
  unfold htmlEscape at hc
  rw [List.mem_flatMap] at hc
  obtain ⟨a, _, hca⟩ := hc
  exact escapeChar_no_angle a c hca

lemma matchOnAt_mem {l r : List Char} (h : matchOnAt l = some r) : ∀ c ∈ r, c ∈ l := by
  intro c hc
  match l with
  | [] => simp [matchOnAt] at h
  | [c1] => simp [matchOnAt] at h
  | c1 :: c2 :: rest =>
    simp only [matchOnAt] at h
    split at h
    · split at h
      · exact absurd h (by simp)
      · split at h
        next r3 heq =>
          have hr : r = r3 := (Option.some.inj h).symm
          subst hr
          have h1 : c ∈ ('=' :: r) := List.mem_cons_of_mem _ hc
          rw [← heq] at h1
          have h2 : c ∈ rest.dropWhile isWordCh :=
            (List.dropWhile_sublist _).mem h1
          have h3 : c ∈ rest := (List.dropWhile_sublist _).mem h2
          exact List.mem_cons_of_mem _ (List.mem_cons_of_mem _ h3)
        next => exact absurd h (by simp)
    · exact absurd h (by simp)

lemma removeOnAux_mem : ∀ (fuel : Nat) (l : List Char), ∀ c ∈ removeOnAux fuel l, c ∈ l := by
  intro fuel
  induction fuel with
  | zero => intro l c hc; simpa [removeOnAux] using hc
  | succ n ih =>
    intro l c hc
    rw [removeOnAux.eq_def] at hc; simp only [] at hc
    cases hm : matchOnAt l with
    | some rest =>
      rw [hm] at hc
      simp only [] at hc
      exact matchOnAt_mem hm c (ih rest c hc)
    | none =>
      rw [hm] at hc
      simp only [] at hc
      cases l with
      | nil => simp at hc
      | cons a tl =>
        rcases List.mem_cons.mp hc with rfl | h2
        · exact List.mem_cons_self _ _
        · exact List.mem_cons_of_mem _ (ih tl c h2)

lemma removeJsAux_mem : ∀ (fuel : Nat) (l : List Char), ∀ c ∈ removeJsAux fuel l, c ∈ l := by
  intro fuel
  induction fuel with
  | zero => intro l c hc; simpa [removeJsAux] using hc
  | succ n ih =>
    intro l c hc
    rw [removeJsAux.eq_def] at hc; simp only [] at hc
    split at hc
    · exact (List.drop_sublist _ _).mem (ih _ c hc)
    · cases l with
      | nil => simp at hc
      | cons a tl =>
        rcases List.mem_cons.mp hc with rfl | h2
        · exact List.mem_cons_self _ _
        · exact List.mem_cons_of_mem _ (ih tl c h2)

lemma findCloseTag_mem {cl : List Char} :
    ∀ {l r : List Char}, findCloseTag cl l = some r → ∀ c ∈ r, c ∈ l := by
  intro l
  induction l with
  | nil => intro r h; simp [findCloseTag] at h
  | cons a tl ih =>
    intro r h c hc
    rw [findCloseTag] at h
    split at h
    · have hr : r = (a :: tl).drop cl.length := (Option.some.inj h).symm
      subst hr
      exact (List.drop_sublist _ _).mem hc
    · exact List.mem_cons_of_mem _ (ih h c hc)

lemma matchTagAt_mem {ol cl l r : List Char} (h : matchTagAt ol cl l = some r) :
    ∀ c ∈ r, c ∈ l := by
  intro c hc
  unfold matchTagAt at h
  split at h
  · split at h
    next body heq =>
      have h1 : c ∈ body := findCloseTag_mem h c hc
      have h2 : c ∈ ('>' :: body) := List.mem_cons_of_mem _ h1
      rw [← heq] at h2
      have h3 : c ∈ l.drop ol.length := (List.dropWhile_sublist _).mem h2
      exact (List.drop_sublist _ _).mem h3
    next => exact absurd h (by simp)
  · exact absurd h (by simp)

lemma removeTagAux_mem (ol cl : List Char) :
    ∀ (fuel : Nat) (l : List Char), ∀ c ∈ removeTagAux ol cl fuel l, c ∈ l := by
  intro fuel
  induction fuel with
  | zero => intro l c hc; simpa [removeTagAux] using hc
  | succ n ih =>
    intro l c hc
    rw [removeTagAux.eq_def] at hc; simp only [] at hc
    cases hm : matchTagAt ol cl l with
    | some rest =>
      rw [hm] at hc
      simp only [] at hc
      exact matchTagAt_mem hm c (ih rest c hc)
    | none =>
      rw [hm] at hc
      simp only [] at hc
      cases l with
      | nil => simp at hc
      | cons a tl =>
        rcases List.mem_cons.mp hc with rfl | h2
        · exact List.mem_cons_self _ _
        · exact List.mem_cons_of_mem _ (ih tl c h2)

lemma pyStrip_mem {l : List Char} : ∀ c ∈ pyStrip l, c ∈ l := by
  intro c hc
  unfold pyStrip at hc
  rw [List.mem_reverse] at hc
  have h1 := (List.dropWhile_sublist _).mem hc
  rw [List.mem_reverse] at h1
  exact (List.dropWhile_sublist _).mem h1

lemma sanitizeChars_mem_escape {l : List Char} :
    ∀ c ∈ sanitizeChars l, c ∈ htmlEscape l := by
  intro c hc
  simp only [sanitizeChars, removeIframe, removeOn, removeJs, removeScript] at hc
  have h1 := pyStrip_mem c hc
  have h2 := removeTagAux_mem _ _ _ _ c h1
  have h3 := removeOnAux_mem _ _ c h2
  have h4 := removeJsAux_mem _ _ c h3
  exact removeTagAux_mem _ _ _ _ c h4

lemma containsSeq_head_mem {c0 : Char} {ps l : List Char}
    (h : containsSeq (c0 :: ps) l = true) : c0 ∈ l := by
  induction l with
  | nil => simp [containsSeq] at h
  | cons a tl ih =>
    rw [containsSeq] at h
    rcases (Bool.or_eq_true _ _).mp h with h1 | h2
    · rw [leadsWith] at h1
      have := ((Bool.and_eq_true _ _).mp h1).1
      have ha : a = c0 := by simpa using this
      subst ha
      exact List.mem_cons_self _ _
    · exact List.mem_cons_of_mem _ (ih h2)

/-- Claim C6 (amended): for every input string, sanitization truncates to the
field maximum, HTML-escapes, removes the dangerous patterns
(case-insensitively, across line breaks) and trims — in that source
order; because escaping precedes removal, the output contains no `<`
or `>` character at all, hence neither a `<script` nor an `<iframe`
substring, and angle brackets of any embedded tag appear only as HTML
entities.  The `onerror=` part of the original claim is weakened: an
input containing `on*=` or `javascript:` occurrences has them removed
in one left-to-right pass, but text concatenated by those removals can
itself spell `onerror=` in the output (see the counterexample). -/
theorem c6_sanitize_output_has_no_angle_brackets (s : String) (m : Nat) :
    (∀ c ∈ (sanitize_string s m).toList, c ≠ '<' ∧ c ≠ '>')
    ∧ containsSeq "<script".toList (sanitize_string s m).toList = false
    ∧ containsSeq "<iframe".toList (sanitize_string s m).toList = false := by
  have key : ∀ c ∈ (sanitize_string s m).toList, c ≠ '<' ∧ c ≠ '>' := by
    intro c hc
    unfold sanitize_string at hc
    split at hc
    · next he =>
        rw [String.isEmpty_iff] at he
        subst he
        simp at hc
    · have h1 : c ∈ sanitizeChars (s.toList.take m) := hc
      have h2 := sanitizeChars_mem_escape c h1
      exact htmlEscape_no_angle _ c h2
  refine ⟨key, ?_, ?_⟩
  · by_contra hcon
    rw [Bool.not_eq_false] at hcon
    have hlt : "<script".toList = '<' :: "script".toList := by decide
    rw [hlt] at hcon
    exact (key '<' (containsSeq_head_mem hcon)).1 rfl
  · by_contra hcon
    rw [Bool.not_eq_false] at hcon
    have hlt : "<iframe".toList = '<' :: "iframe".toList := by decide
    rw [hlt] at hcon
    exact (key '<' (containsSeq_head_mem hcon)).1 rfl

/-- Claim C6 counterexample: the input `"onerror=oonx=nerror="` contains
the substring `onerror=`, and so does its sanitized output — the
removal of the two inner `on*=` matches concatenates the remaining
text into a fresh `onerror=`.  This refutes the claim that an input
containing an `onerror=` attribute always yields an output without
that substring. -/
theorem c6_onerror_survives_counterexample :
    containsSeq "onerror=".toList "onerror=oonx=nerror=".toList = true
    ∧ sanitize_string "onerror=oonx=nerror=" 1000 = "onerror="
    ∧ containsSeq "onerror=".toList
        (sanitize_string "onerror=oonx=nerror=" 1000).toList = true := by
  decide

/-- Claim C1 (code bug): the `create_todo` handler's blanket
`except Exception` also catches the `HTTPException(422)` its own
validation raises, so a creation payload with a category outside the
allow-list — which the validation step correctly flags as a 422
`Invalid category` — is answered with a 500 and the generic Korean
failure message, not with the 422 the claim (and the endpoint table)
promises. -/
theorem c1_create_todo_validation_error_surfaces_as_500 :
    createTodoBody ⟨"Buy milk", none, 3, some "Shopping", none⟩ 1 0
      = Except.error ⟨422, "Invalid category"⟩
    ∧ create_todo_endpoint ⟨"Buy milk", none, 3, some "Shopping", none⟩ 1 0
      = HttpResult.err ⟨500, "할 일 생성 중 오류가 발생했습니다"⟩ :=
  ⟨rfl, rfl⟩

/-- Claim C2 (code bug): in `crud.update_todo` the direct
`redis_client.delete(f"todo:{id}")` call sits outside any `try`, so
when that one cache operation fails after the database commit the
exception escapes (`CrudResult.raised`) even though the store already
holds the mutation — the committed update is reported to the caller as
a failure.  Failures confined to the two guarded helpers are indeed
swallowed (`CrudResult.ok`), and `crud.create_todo`, whose cache work
is entirely inside the helpers, survives even a totally failing
cache. -/
theorem c2_update_cache_delete_failure_raises_after_commit :
    Crud.update_todo ⟨true, false, false, false, false, false⟩
      [⟨1, "Task", none, TodoStatus.TODO, 3, none, none, none, 0, 0⟩] ⟨[1], [1]⟩
      1 ⟨some "New", none, none, none, none⟩ 5
      = CrudResult.raised [⟨1, "New", none, TodoStatus.TODO, 3, none, none, none, 0, 5⟩] ⟨[1], [1]⟩
    ∧ ([⟨1, "New", none, TodoStatus.TODO, 3, none, none, none, 0, 5⟩] : List Todo)
        ≠ [⟨1, "Task", none, TodoStatus.TODO, 3, none, none, none, 0, 0⟩]
    ∧ Crud.update_todo ⟨false, true, true, true, true, true⟩
      [⟨1, "Task", none, TodoStatus.TODO, 3, none, none, none, 0, 0⟩] ⟨[1], [1]⟩
      1 ⟨some "New", none, none, none, none⟩ 5
      = CrudResult.ok [⟨1, "New", none, TodoStatus.TODO, 3, none, none, none, 0, 5⟩] ⟨[], [1]⟩
          ⟨1, "New", none, TodoStatus.TODO, 3, none, none, none, 0, 5⟩
    ∧ Crud.create_todo ⟨true, true, true, true, true, true⟩
      [⟨1, "Task", none, TodoStatus.TODO, 3, none, none, none, 0, 0⟩] ⟨[1], [1]⟩
      ⟨2, "B", none, TodoStatus.TODO, 3, none, none, none, 7, 7⟩
      = CrudResult.ok
          [⟨1, "Task", none, TodoStatus.TODO, 3, none, none, none, 0, 0⟩,
           ⟨2, "B", none, TodoStatus.TODO, 3, none, none, none, 7, 7⟩] ⟨[1], [1]⟩
          ⟨2, "B", none, TodoStatus.TODO, 3, none, none, none, 7, 7⟩ :=
  ⟨by decide, by decide, by decide, by decide⟩

/-- Claim C3 counterexample: when the upstream reply decodes to an
object with a title and `priority = 99`, `parse` returns that priority
unchanged — outside 1-5 — and the result is not the fallback either,
so neither disjunct of the claim holds. -/
theorem c3_out_of_range_priority_counterexample :
    (todo_parser_parse "x"
        (LLMParseOutcome.ok ⟨some "x", none, some 99, some "기타", some 30⟩)).priority = 99
    ∧ todo_parser_parse "x"
        (LLMParseOutcome.ok ⟨some "x", none, some 99, some "기타", some 30⟩)
        ≠ parse_fallback "x"
    ∧ ¬((1 : Int) ≤ 99 ∧ (99 : Int) ≤ 5) := by
  decide

/-- Claim C3 (amended): for any input text and upstream outcome, the
Parse agent never raises: it returns either exactly the documented
fallback (on upstream failure, or when the decoded object lacks a
title), or the decoded object with missing
`priority`/`category`/`estimated_time` defaulted to 3 / "기타" / 30 —
supplied values are defaulted only, not range-checked. -/
theorem c3_parse_defaults_or_exact_fallback (input : String) (u : LLMParseOutcome) :
    parse_fallback input
      = ⟨String.mk (input.toList.take 255), none, 3, "기타", 30⟩
    ∧ (todo_parser_parse input u = parse_fallback input
      ∨ (∃ d, u = LLMParseOutcome.ok d ∧ d.title ≠ none
          ∧ (todo_parser_parse input u).title = d.title.getD ""
          ∧ (todo_parser_parse input u).description = d.description
          ∧ (todo_parser_parse input u).priority = d.priority.getD 3
          ∧ (todo_parser_parse input u).category = d.category.getD "기타"
          ∧ (todo_parser_parse input u).estimated_time = d.estimated_time.getD 30)) := by
  refine ⟨rfl, ?_⟩
  cases u with
  | failure => exact Or.inl rfl
  | ok d =>
    cases ht : d.title with
    | none => exact Or.inl (by simp [todo_parser_parse, ht])
    | some t =>
      refine Or.inr ⟨d, rfl, by simp [ht], ?_, ?_, ?_, ?_, ?_⟩ <;>
        simp [todo_parser_parse, ht]

/-- Claim C4: a `sort_by` value naming no attribute of the task model
class makes `getattr` return its default — which resolves to the
`created_at` column — so the list query returns exactly what it
returns for `sort_by = "created_at"`, in the requested direction. -/
theorem c4_unknown_sort_by_falls_back_to_created_at (db : List Todo)
    (skip limit : Nat) (status category : Option String) (priority : Option Int)
    (sort_by order : String)
    (h1 : sort_by ∉ todoColumnNames) (h2 : sort_by ∉ todoOtherAttrNames) :
    get_todos db skip limit status category priority sort_by order
      = get_todos db skip limit status category priority "created_at" order := by
  unfold get_todos
  have hs : getattrTodoSort sort_by = SortTarget.col "created_at" := by
    unfold getattrTodoSort
    rw [if_neg h1, if_neg h2]
  have hc : getattrTodoSort "created_at" = SortTarget.col "created_at" := by decide
  rw [hs, hc]

/-- Claim C4 witness: `"name"` is not an attribute of the task model,
and listing sorted by it equals listing sorted by creation time. -/
theorem c4_unknown_sort_by_witness :
    ("name" ∉ todoColumnNames)
    ∧ ("name" ∉ todoOtherAttrNames)
    ∧ get_todos [⟨1, "A", none, TodoStatus.TODO, 3, none, none, none, 0, 0⟩] 0 20
        none none none "name" "desc"
      = get_todos [⟨1, "A", none, TodoStatus.TODO, 3, none, none, none, 0, 0⟩] 0 20
        none none none "created_at" "desc" :=
  ⟨by decide, by decide,
    c4_unknown_sort_by_falls_back_to_created_at
      [⟨1, "A", none, TodoStatus.TODO, 3, none, none, none, 0, 0⟩] 0 20
      none none none "name" "desc" (by decide) (by decide)⟩

/-- Claim C5: each suggestion is applied to the final task exactly when
its confidence is strictly above the 0.7 threshold (0.71 qualifies,
0.70 does not), and `ai_metadata` is always attached, carrying the
three confidences (0 for a missing suggestion) and `processed = true`. -/
theorem c5_aggregation_strict_threshold_and_metadata (parsed : Draft)
    (ps : PrioritySuggestion) (cs : CategorySuggestion) (ts : TimeSuggestion)
    (pr : Option PrioritySuggestion) (cc : Option CategorySuggestion)
    (te : Option TimeSuggestion) :
    ((aggregate_results parsed (some ps) (some cs) (some ts)).priority
      = if ps.confidence > CONFIDENCE_THRESHOLD then ps.recommended_priority
        else parsed.priority)
    ∧ ((aggregate_results parsed (some ps) (some cs) (some ts)).category
      = if cs.confidence > CONFIDENCE_THRESHOLD then cs.category else parsed.category)
    ∧ ((aggregate_results parsed (some ps) (some cs) (some ts)).estimated_time
      = if ts.confidence > CONFIDENCE_THRESHOLD then ts.estimated_minutes
        else parsed.estimated_time)
    ∧ ((71 / 100 : ℚ) > CONFIDENCE_THRESHOLD ∧ ¬((70 / 100 : ℚ) > CONFIDENCE_THRESHOLD))
    ∧ ((aggregate_results parsed pr cc te).ai_metadata
      = ⟨(pr.map PrioritySuggestion.confidence).getD 0,
         (cc.map CategorySuggestion.confidence).getD 0,
         (te.map TimeSuggestion.confidence).getD 0, true⟩) := by
  refine ⟨rfl, rfl, rfl, by norm_num [CONFIDENCE_THRESHOLD], ?_⟩
  cases pr <;> cases cc <;> cases te <;> rfl

lemma validateLoop_ok_length (todos : List BatchTodo)
    (h : ∀ t ∈ todos, validate_todo_data t ≠ Except.error VErr.typeError) :
    validateLoop todos
      = Except.ok (todos.filterMap (fun t => (validate_todo_data t).toOption)) := by
  induction todos with
  | nil => rfl
  | cons t ts ih =>
    have hts := ih (fun x hx => h x (List.mem_cons_of_mem _ hx))
    rw [validateLoop]
    cases hv : validate_todo_data t with
    | ok v => rw [hts]; simp [List.filterMap_cons, hv, Except.toOption, Except.map]
    | error e =>
      cases e with
      | http he => rw [hts]; simp [List.filterMap_cons, hv, Except.toOption, Except.map]
      | typeError => exact absurd hv (h t (List.mem_cons_self _ _))

/-- Claim C7: a batch of more than 100 items, or an empty batch, is
rejected with 422 before any per-item work; otherwise (when no item
trips the non-HTTPException `TypeError` path) each item failing a
validation check is dropped individually, the analysis proceeds over
the survivors, and the response reports `original_count` = submitted
items and `todo_count` = items that passed validation. -/
theorem c7_analyze_batch_bounds_and_counts (todos : List BatchTodo)
    (llm : Option String) :
    (todos.length > 100 →
      analyze_batch todos llm = HttpResult.err ⟨422, "Batch size cannot exceed 100 todos"⟩)
    ∧ (todos.length = 0 →
      analyze_batch todos llm = HttpResult.err ⟨422, "Batch cannot be empty"⟩)
    ∧ (0 < todos.length → todos.length ≤ 100 →
      (∀ t ∈ todos, validate_todo_data t ≠ Except.error VErr.typeError) →
      analyze_batch todos llm
        = HttpResult.ok 200
            ⟨batch_analyzer_analyze llm,
             (todos.filterMap (fun t => (validate_todo_data t).toOption)).length,
             todos.length⟩) := by
  refine ⟨?_, ?_, ?_⟩
  · intro h
    unfold analyze_batch
    rw [if_pos h]
  · intro h
    unfold analyze_batch
    rw [if_neg (by omega), if_pos h]
  · intro h1 h2 h3
    unfold analyze_batch
    rw [if_neg (by omega), if_neg (by omega), validateLoop_ok_length todos h3]

/-- Claim C7 witness: three valid and two invalid payloads give
`original_count = 5`, `todo_count = 3`, with the agent's fallback
analysis text. -/
theorem c7_analyze_batch_witness :
    analyze_batch
      [⟨none, none, none, none, none⟩,
       ⟨some (JVal.jstr "Write docs"), none, none, none, none⟩,
       ⟨none, none, none, some (JVal.jint 2), none⟩,
       ⟨none, none, none, some (JVal.jint 9), none⟩,
       ⟨none, none, some (JVal.jstr "Nope"), none, none⟩] none
      = HttpResult.ok 200 ⟨"Unable to analyze todos at this time.", 3, 5⟩ := by
  have h := (c7_analyze_batch_bounds_and_counts
    [⟨none, none, none, none, none⟩,
     ⟨some (JVal.jstr "Write docs"), none, none, none, none⟩,
     ⟨none, none, none, some (JVal.jint 2), none⟩,
     ⟨none, none, none, some (JVal.jint 9), none⟩,
     ⟨none, none, some (JVal.jstr "Nope"), none, none⟩] none).2.2
    (by decide) (by decide) (by decide)
  exact h.trans (by decide)

lemma lookupCounts_setCounts (st : RateState) (ip : String) (v : List ℚ) :
    lookupCounts (setCounts st ip v) ip = v := by
  induction st with
  | nil => simp [setCounts, lookupCounts]
  | cons p tl ih =>
    obtain ⟨k, w⟩ := p
    rw [setCounts]
    by_cases hk : k = ip
    · rw [if_pos hk, lookupCounts, if_pos rfl]
    · rw [if_neg hk, lookupCounts, if_neg hk]
      exact ih

lemma run_admits (limit : Nat) (ip apiPath : String)
    (hpath : pyEndsWith apiPath "/health" = false) :
    ∀ (ts : List ℚ) (st : RateState) (pre : List ℚ),
      lookupCounts st ip = pre →
      pre.length + ts.length ≤ limit →
      (∀ x ∈ ts, ∀ s ∈ pre, x - s < RATE_LIMIT_WINDOW) →
      (∀ x ∈ ts, ∀ s ∈ ts, x - s < RATE_LIMIT_WINDOW) →
      (runRequests limit ip (ts.map fun x => (apiPath, x)) st).1.all id = true
      ∧ lookupCounts (runRequests limit ip (ts.map fun x => (apiPath, x)) st).2 ip
          = pre ++ ts := by
  intro ts
  induction ts with
  | nil =>
    intro st pre hst hlen hpre hts
    simp [runRequests, hst]
  | cons x rest ih =>
    intro st pre hst hlen hpre hts
    simp only [List.length_cons] at hlen
    have hmid : middlewareStep limit apiPath ip x st
        = (true, setCounts st ip (pre ++ [x])) := by
      unfold middlewareStep check_rate_limit
      rw [if_neg (by simp [hpath]), hst]
      have hfilter : pre.filter (fun s => decide (x - s < RATE_LIMIT_WINDOW)) = pre :=
        List.filter_eq_self.mpr (fun s hs => by
          exact decide_eq_true (hpre x (List.mem_cons_self _ _) s hs))
      rw [hfilter]
      rw [if_neg (by omega)]
    rw [List.map_cons, runRequests, hmid]
    have hrec := ih (setCounts st ip (pre ++ [x])) (pre ++ [x])
      (lookupCounts_setCounts st ip (pre ++ [x]))
      (by simp; omega)
      (by
        intro y hy s hs
        rcases List.mem_append.mp hs with hmem1 | hmem2
        · exact hpre y (List.mem_cons_of_mem _ hy) s hmem1
        · rw [List.mem_singleton.mp hmem2]
          exact hts y (List.mem_cons_of_mem _ hy) x (List.mem_cons_self _ _))
      (fun y hy s hs =>
        hts y (List.mem_cons_of_mem _ hy) s (List.mem_cons_of_mem _ hs))
    refine ⟨?_, by simpa using hrec.2⟩
    simp only [List.all_cons, id, Bool.true_and]
    exact hrec.1

/-- Claim C8: with the per-service limit N (60 for the AI service, 100
for the Todo service), N requests from one client IP, all inside one
trailing 60-second window, are all admitted, and the next request from
that IP inside the window is rejected (HTTP 429); requests to a path
ending in the health-check path are always admitted and never touch
the rate-limit state. -/
theorem c8_rate_limit_sliding_window (limit : Nat) (ip apiPath : String)
    (ts : List ℚ) (t : ℚ)
    (hlimit : limit = AI_RATE_LIMIT_REQUESTS ∨ limit = TODO_RATE_LIMIT_REQUESTS)
    (hpath : pyEndsWith apiPath "/health" = false)
    (hlen : ts.length = limit)
    (hle : ∀ s ∈ ts, s ≤ t)
    (hwin : ∀ s ∈ ts, t - s < RATE_LIMIT_WINDOW) :
    ((runRequests limit ip (ts.map fun x => (apiPath, x)) []).1.all id = true)
    ∧ (middlewareStep limit apiPath ip t
        (runRequests limit ip (ts.map fun x => (apiPath, x)) []).2).1 = false
    ∧ (∀ (hp : String), pyEndsWith hp "/health" = true →
        ∀ (st : RateState) (now : ℚ), middlewareStep limit hp ip now st = (true, st)) := by
  have hrun := run_admits limit ip apiPath hpath ts [] []
    rfl (by simpa using hlen.le)
    (by intro x hx s hs; simp at hs)
    (by
      intro x hx s hs
      calc x - s ≤ t - s := by
            have := hle x hx
            linarith
        _ < RATE_LIMIT_WINDOW := hwin s hs)
  refine ⟨hrun.1, ?_, ?_⟩
  · unfold middlewareStep check_rate_limit
    rw [if_neg (by simp [hpath])]
    rw [show lookupCounts (runRequests limit ip (ts.map fun x => (apiPath, x)) []).2 ip = ts
        from by simpa using hrun.2]
    have hfilter : ts.filter (fun s => decide (t - s < RATE_LIMIT_WINDOW)) = ts :=
      List.filter_eq_self.mpr (fun s hs => decide_eq_true (hwin s hs))
    rw [hfilter, if_pos (by omega)]
  · intro hp hhp st now
    unfold middlewareStep
    rw [if_pos (by simp [hhp])]

/-- Claim C8 witness: 60 requests at time 0 from one IP to `/todos` on
the AI service (limit 60) are all admitted; the 61st request at time 1
is rejected; a `/health` request is admitted without touching the
state. -/
theorem c8_rate_limit_witness :
    ((runRequests 60 "1.2.3.4" ((List.replicate 60 (0 : ℚ)).map fun x => ("/todos", x)) []).1.all id
        = true)
    ∧ (middlewareStep 60 "/todos" "1.2.3.4" 1
        (runRequests 60 "1.2.3.4" ((List.replicate 60 (0 : ℚ)).map fun x => ("/todos", x)) []).2).1
        = false
    ∧ middlewareStep 60 "/health" "1.2.3.4" 1 [] = (true, []) := by
  have h := c8_rate_limit_sliding_window 60 "1.2.3.4" "/todos" (List.replicate 60 (0 : ℚ)) 1
    (Or.inl rfl) (by decide) (by decide)
    (by intro s hs; rw [List.eq_of_mem_replicate hs]; norm_num)
    (by intro s hs; rw [List.eq_of_mem_replicate hs]; norm_num [RATE_LIMIT_WINDOW])
  exact ⟨h.1, h.2.1, h.2.2 "/health" (by decide) [] 1⟩

/-- Claim C9: the Update operation applies exactly the fields supplied
in the partial payload: every supplied field takes the supplied value,
every unsupplied field keeps the stored value, the identity, status,
AI metadata and creation time are untouched, and only `updated_at` is
refreshed; moreover `crud.update_todo` on an existing row commits
precisely this field application. -/
theorem c9_update_applies_exactly_supplied_fields (t : Todo) (u : TodoUpdate) (now : ℚ) :
    ((u.title = none → (applyTodoUpdate t u now).title = t.title)
      ∧ ∀ v, u.title = some v → (applyTodoUpdate t u now).title = v)
    ∧ ((u.description = none → (applyTodoUpdate t u now).description = t.description)
      ∧ ∀ v, u.description = some v → (applyTodoUpdate t u now).description = v)
    ∧ ((u.priority = none → (applyTodoUpdate t u now).priority = t.priority)
      ∧ ∀ v, u.priority = some v → (applyTodoUpdate t u now).priority = v)
    ∧ ((u.category = none → (applyTodoUpdate t u now).category = t.category)
      ∧ ∀ v, u.category = some v → (applyTodoUpdate t u now).category = v)
    ∧ ((u.estimated_time = none → (applyTodoUpdate t u now).estimated_time = t.estimated_time)
      ∧ ∀ v, u.estimated_time = some v → (applyTodoUpdate t u now).estimated_time = v)
    ∧ (applyTodoUpdate t u now).id = t.id
    ∧ (applyTodoUpdate t u now).status = t.status
    ∧ (applyTodoUpdate t u now).ai_metadata = t.ai_metadata
    ∧ (applyTodoUpdate t u now).created_at = t.created_at
    ∧ (applyTodoUpdate t u now).updated_at = now
    ∧ (∀ (f : RedisFailure) (db : List Todo) (st : CacheState) (todoId : Nat) (t0 : Todo),
        dbFind db todoId = some t0 → f.itemDeleteFails = false →
        Crud.update_todo f db st todoId u now
          = CrudResult.ok (dbReplace db (applyTodoUpdate t0 u now))
              (cache_todo_with_tags f todoId
                (invalidate_todos_list_cache f
                  { st with items := st.items.filter (fun k => k ≠ todoId) }))
              (applyTodoUpdate t0 u now)) := by
  refine ⟨⟨?_, ?_⟩, ⟨?_, ?_⟩, ⟨?_, ?_⟩, ⟨?_, ?_⟩, ⟨?_, ?_⟩, rfl, rfl, rfl, rfl, rfl, ?_⟩
  · intro h; simp [applyTodoUpdate, h]
  · intro v h; simp [applyTodoUpdate, h]
  · intro h; simp [applyTodoUpdate, h]
  · intro v h; simp [applyTodoUpdate, h]
  · intro h; simp [applyTodoUpdate, h]
  · intro v h; simp [applyTodoUpdate, h]
  · intro h; simp [applyTodoUpdate, h]
  · intro v h; simp [applyTodoUpdate, h]
  · intro h; simp [applyTodoUpdate, h]
  · intro v h; simp [applyTodoUpdate, h]
  · intro f db st todoId t0 hf hdel
    unfold Crud.update_todo
    rw [hf, hdel]
    simp

/-- Claim C9 witness: updating a stored row with a payload supplying
only `title` and `priority` changes exactly those two fields. -/
theorem c9_update_witness :
    (applyTodoUpdate ⟨1, "Old", some "d", TodoStatus.DOING, 2, some "업무", some 10, some "m", 0, 0⟩
        ⟨some "New", none, some 5, none, none⟩ 9).title = "New"
    ∧ (applyTodoUpdate ⟨1, "Old", some "d", TodoStatus.DOING, 2, some "업무", some 10, some "m", 0, 0⟩
        ⟨some "New", none, some 5, none, none⟩ 9).priority = 5
    ∧ (applyTodoUpdate ⟨1, "Old", some "d", TodoStatus.DOING, 2, some "업무", some 10, some "m", 0, 0⟩
        ⟨some "New", none, some 5, none, none⟩ 9).description = some "d"
    ∧ (applyTodoUpdate ⟨1, "Old", some "d", TodoStatus.DOING, 2, some "업무", some 10, some "m", 0, 0⟩
        ⟨some "New", none, some 5, none, none⟩ 9).category = some "업무"
    ∧ (applyTodoUpdate ⟨1, "Old", some "d", TodoStatus.DOING, 2, some "업무", some 10, some "m", 0, 0⟩
        ⟨some "New", none, some 5, none, none⟩ 9).status = TodoStatus.DOING := by
  obtain ⟨⟨_, h1⟩, ⟨h2, _⟩, ⟨_, h3⟩, ⟨h4, _⟩, _, _, h6, _⟩ :=
    c9_update_applies_exactly_supplied_fields
      ⟨1, "Old", some "d", TodoStatus.DOING, 2, some "업무", some 10, some "m", 0, 0⟩
      ⟨some "New", none, some 5, none, none⟩ 9
  exact ⟨h1 "New" rfl, h3 5 rfl, h2 rfl, h4 rfl, h6⟩

/-- Claim C10: every counter value reachable from 0 by guarded
acquires (which increment only after observing the counter strictly
below the cap, atomically under cooperative scheduling) and clamped
releases stays between 0 and the cap of 10 inclusive. -/
theorem c10_slot_counter_stays_in_bounds (c : Int) (h : SlotReachable c) :
    0 ≤ c ∧ c ≤ MAX_CONCURRENT_REQUESTS := by
  induction h with
  | init => decide
  | step c c2 hr hs ih =>
    cases hs with
    | acquire hlt =>
      unfold MAX_CONCURRENT_REQUESTS at *
      omega
    | release =>
      unfold MAX_CONCURRENT_REQUESTS at *
      omega

/-- Claim C10 witness: the state after one successful acquire is
reachable and within bounds. -/
theorem c10_slot_counter_witness : (0 : Int) ≤ 1 ∧ (1 : Int) ≤ MAX_CONCURRENT_REQUESTS :=
  c10_slot_counter_stays_in_bounds 1
    (SlotReachable.step 0 1 SlotReachable.init (SlotStep.acquire 0 (by decide)))

end TodoApp
